import Mathlib

/-!
Verification of the forecast-monitoring and retraining-decision engine of the
Python_revision repository against its natural-language specification.

The development shallowly embeds the relevant Python code:

* `src/projects/ml_engineer_project/src/monitoring/metrics.py`
  (class ModelMonitor: calculate_drift, calculate_psi,
  check_all_features_drift, check_performance_degradation, should_retrain);
* `src/projects/commodity_forecasting/src/production_pipeline.py`
  (class ProductionForecaster: generate_forecast, t_policy_recommendation).

Modelling conventions, used consistently below:

* numeric values are rationals (`ℚ`); Python floats that may be non-finite
  (NaN or ±inf) are `Option ℚ`, with `none` standing for a non-finite float;
* a pandas DataFrame is a list of named numeric columns
  (`List (String × List ℚ)`); a metrics dict is `List (String × ℚ)` in
  insertion order, matching Python dict iteration order;
* dates are integer day numbers, so "the day after d" is `d + 1`;
* operations that raise in Python (empty-frame `max()`, `iloc[-1]` on an
  empty column, `pd.cut` with fewer than two edges, DataFrame construction
  from unequal-length columns) return `none`;
* wall-clock timestamp fields (`datetime.now()`), log messages and free-text
  reasoning strings carry no decision content and are omitted from the
  embedded records;
* `np.log` on positive arguments is an abstract parameter `ln : ℚ → ℚ`:
  no theorem below depends on its values, only on where the float
  computation leaves the finite domain.
-/

set_option linter.unusedVariables false

namespace PyRev

/-- Float comparison `x > c` where `x` may be NaN (`none`): any comparison
with NaN is false in IEEE semantics. -/
def nanGt (x : Option ℚ) (c : ℚ) : Bool :=
  match x with
  | some v => decide (c < v)
  | none => false

/-- Float comparison `x < c` where `x` may be NaN (`none`). -/
def nanLt (x : Option ℚ) (c : ℚ) : Bool :=
  match x with
  | some v => decide (v < c)
  | none => false

namespace Monitoring

/-- A pandas DataFrame as the monitoring code reads it: named numeric columns. -/
abbrev Frame := List (String × List ℚ)

/-- The frame's column names (`df.columns`). -/
def cols (df : Frame) : List String := df.map Prod.fst

/-- A named column's values (`df[feature]`). -/
def col (df : Frame) (feature : String) : Option (List ℚ) :=
  df.lookup feature

/-- Empirical CDF of a sample at a point. -/
def ecdf (xs : List ℚ) (t : ℚ) : ℚ :=
  ((xs.filter (fun x => decide (x ≤ t))).length : ℚ) / (xs.length : ℚ)

/-- Two-sample Kolmogorov-Smirnov statistic (`scipy.stats.ks_2samp`): the
maximum absolute difference between the two empirical CDFs, attained at a
sample point of either sample. -/
def ks_2samp (xs ys : List ℚ) : ℚ :=
  ((xs ++ ys).map (fun t => |ecdf xs t - ecdf ys t|)).foldr max 0

/-- Insert into a sorted list, ascending. -/
def insertSorted (x : ℚ) : List ℚ → List ℚ
  | [] => [x]
  | y :: ys => if x ≤ y then x :: y :: ys else y :: insertSorted x ys

/-- Insertion sort, ascending (`np.percentile` sorts its input internally). -/
def sortAsc (xs : List ℚ) : List ℚ := xs.foldr insertSorted []

/-- One percentile with numpy's default linear interpolation: the virtual
index is `(n - 1) * q / 100`; the result interpolates between the two
neighbouring order statistics. -/
def percentile (xs : List ℚ) (q : ℚ) : ℚ :=
  let a := sortAsc xs
  let n := a.length
  let h : ℚ := ((n : ℚ) - 1) * q / 100
  let lo : ℕ := (Rat.floor h).toNat
  if lo + 1 < n then
    a.getD lo 0 + (h - (lo : ℚ)) * (a.getD (lo + 1) 0 - a.getD lo 0)
  else
    a.getD (n - 1) 0

/-- Breakpoints used by `calculate_psi`:
`np.percentile(expected, np.linspace(0, 100, bins + 1))` followed by
`np.unique` (sort and drop duplicate breakpoints). -/
def psiBreakpoints (expected : List ℚ) (bins : ℕ) : List ℚ :=
  (sortAsc ((List.range (bins + 1)).map
    (fun j => percentile expected (100 * (j : ℚ) / (bins : ℚ))))).dedup

/-- The `pd.cut` bin of a value, for right-closed intervals between
consecutive breakpoints with `include_lowest=True` (the first interval also
contains its left edge); `none` when the value falls outside the overall
range (pandas codes it NaN and drops it from the counts). Interior search
over the remaining edges, starting at bin index `i`. -/
def binIndexFrom (x : ℚ) : List ℚ → ℕ → Option ℕ
  | lo :: hi :: rest, i =>
    if lo < x ∧ x ≤ hi then some i else binIndexFrom x (hi :: rest) (i + 1)
  | _, _ => none

/-- The `pd.cut` bin of a value (see `binIndexFrom`). -/
def binIndex (bps : List ℚ) (x : ℚ) : Option ℕ :=
  match bps with
  | b0 :: b1 :: rest =>
    if b0 ≤ x ∧ x ≤ b1 then some 0 else binIndexFrom x (b1 :: rest) 1
  | _ => none

/-- Per-bin counts of a sample under the given breakpoints. -/
def binCounts (bps : List ℚ) (xs : List ℚ) : List ℕ :=
  (List.range (bps.length - 1)).map
    (fun i => (xs.filter (fun x => decide (binIndex bps x = some i))).length)

/-- The `value_counts(normalize=True).sort_index()` of the binned sample:
per-bin count divided by the total number of binned values. When no value
falls inside any bin the normalisation divides zero by zero, a float NaN,
modelled as `none` for every bin. -/
def binProportions (bps : List ℚ) (xs : List ℚ) : List (Option ℚ) :=
  let counts := binCounts bps xs
  let total := counts.sum
  counts.map (fun c => if total = 0 then none else some ((c : ℚ) / (total : ℚ)))

/-- The value class of one float PSI term `(a - e) * log(a / e)`. -/
inductive FloatTerm where
  | nanT : FloatTerm
  | infT : FloatTerm
  | finT : ℚ → FloatTerm
deriving DecidableEq

/-- One term `(actual_percents - expected_percents) * np.log(actual_percents
/ expected_percents)` of the PSI sum, with IEEE float semantics: a NaN
proportion propagates to a NaN term; a zero on both sides gives
`0 * log(0/0) = 0 * NaN = NaN`; a zero on exactly one side gives a `+inf`
term (`log 0 = -inf` against a negative factor, or `log inf = +inf` against
a positive one); otherwise the term is finite. -/
def psiTerm (ln : ℚ → ℚ) : Option ℚ → Option ℚ → FloatTerm
  | some a, some e =>
    if a = 0 ∧ e = 0 then .nanT
    else if a = 0 ∨ e = 0 then .infT
    else .finT ((a - e) * ln (a / e))
  | _, _ => .nanT

/-- Pandas `Series.sum()` over float terms (default `skipna=True`): NaN terms
are skipped; any infinite term makes the result non-finite (`none`). -/
def floatSum (ts : List FloatTerm) : Option ℚ :=
  if ts.any (fun t => decide (t = FloatTerm.infT)) then none
  else some ((ts.filterMap (fun t =>
    match t with
    | .finT v => some v
    | _ => none)).sum)

/-- ModelMonitor.calculate_psi (metrics.py lines 83-110): equal-frequency
breakpoints from the expected sample's percentiles, per-bin proportions of
both samples under those shared breakpoints, then
`((actual_percents - expected_percents) * np.log(actual_percents /
expected_percents)).sum()`. `none` is a non-finite float result, or the
`pd.cut` / `np.percentile` errors of the degenerate inputs noted inline.
There is no epsilon floor anywhere in the source. -/
def calculate_psi (ln : ℚ → ℚ) (expected actual : List ℚ) (bins : ℕ) : Option ℚ :=
  if expected.isEmpty then none
  else
    let breakpoints := psiBreakpoints expected bins
    if breakpoints.length < 2 then none
    else
      let expected_percents := binProportions breakpoints expected
      let actual_percents := binProportions breakpoints actual
      floatSum ((actual_percents.zip expected_percents).map
        (fun p => psiTerm ln p.1 p.2))

/-- The drift detection method selector of `calculate_drift`. -/
inductive DriftMethod where
  | ks : DriftMethod
  | psi : DriftMethod
deriving DecidableEq

/-- ModelMonitor.calculate_drift (metrics.py lines 44-81). `reference = none`
models `self.reference_data is None`. The sample values are exact rationals,
so `dropna` is the identity and is not represented. -/
def calculate_drift (ln : ℚ → ℚ) (reference : Option Frame) (current : Frame)
    (feature : String) (method : DriftMethod) : Option ℚ :=
  match reference with
  | none => some 0
  | some ref =>
    if feature ∉ cols ref ∨ feature ∉ cols current then some 0
    else
      let reference_values := (col ref feature).getD []
      let current_values := (col current feature).getD []
      match method with
      | .ks => some (ks_2samp reference_values current_values)
      | .psi => calculate_psi ln reference_values current_values 10

/-- The drift report built by `check_all_features_drift` (timestamp field
omitted: wall clock). -/
structure DriftReport where
  features : List (String × Option ℚ)
  drifted_features : List String
  drift_detected : Bool
deriving DecidableEq

/-- Python dict assignment `d[k] = v`: replace the value at an existing key
in place, else append the new binding (insertion order is preserved). -/
def dictInsert (d : List (String × Option ℚ)) (k : String) (v : Option ℚ) :
    List (String × Option ℚ) :=
  match d with
  | [] => [(k, v)]
  | (k', v') :: rest =>
    if k' == k then (k, v) :: rest else (k', v') :: dictInsert rest k v

/-- The loop body of `check_all_features_drift` for one configured feature:
features absent from the current frame are not visited at all (the
`if feature in current_data.columns` guard); visited features get their `ks`
drift score recorded, and a score above the threshold is appended to
`drifted_features` and sets the overall flag. -/
def driftStep (ln : ℚ → ℚ) (reference : Option Frame) (current : Frame)
    (threshold : ℚ) (rep : DriftReport) (feature : String) : DriftReport :=
  if feature ∈ cols current then
    let drift_score := calculate_drift ln reference current feature .ks
    let rep' : DriftReport :=
      { rep with features := dictInsert rep.features feature drift_score }
    if nanGt drift_score threshold then
      { rep' with drifted_features := rep'.drifted_features ++ [feature],
                  drift_detected := true }
    else rep'
  else rep

/-- ModelMonitor.check_all_features_drift (metrics.py lines 112-150): the loop
`for feature in numerical_features` over `driftStep`, starting from an empty
report. -/
def check_all_features_drift (ln : ℚ → ℚ) (reference : Option Frame)
    (current : Frame) (numerical_features : List String) (threshold : ℚ) :
    DriftReport :=
  numerical_features.foldl (driftStep ln reference current threshold)
    { features := [], drifted_features := [], drift_detected := false }

/-- One entry of `degraded_metrics` in the degradation report. -/
structure DegEntry where
  metric : String
  baseline : ℚ
  current : ℚ
  degradation : ℚ
deriving DecidableEq

/-- The report built by `check_performance_degradation` (timestamp omitted:
wall clock). -/
structure DegradationReport where
  degraded : Bool
  degraded_metrics : List DegEntry
deriving DecidableEq

/-- The loop body of `check_performance_degradation` for one baseline metric:
a metric also present in the current metrics with
`baseline - current > threshold` is appended as degraded; a metric absent
from the current metrics is skipped by the `if metric in current_metrics`
guard. -/
def degStep (current_metrics : List (String × ℚ)) (threshold : ℚ)
    (report : DegradationReport) (mb : String × ℚ) : DegradationReport :=
  match current_metrics.lookup mb.1 with
  | some current_value =>
    if mb.2 - current_value > threshold then
      { degraded := true,
        degraded_metrics := report.degraded_metrics ++
          [⟨mb.1, mb.2, current_value, mb.2 - current_value⟩] }
    else report
  | none => report

/-- ModelMonitor.check_performance_degradation (metrics.py lines 183-220):
the loop `for metric, baseline_value in baseline_metrics.items()` over
`degStep`, iterating the baseline metrics in insertion order. -/
def check_performance_degradation (current_metrics baseline_metrics : List (String × ℚ))
    (threshold : ℚ) : DegradationReport :=
  baseline_metrics.foldl (degStep current_metrics threshold)
    { degraded := false, degraded_metrics := [] }

/-- The `degraded_metrics` entry that one baseline metric contributes to the
degradation report: present exactly when the metric is also in the current
metrics and its degradation exceeds the threshold. -/
def degEntryFor (current_metrics : List (String × ℚ)) (threshold : ℚ)
    (mb : String × ℚ) : Option DegEntry :=
  match current_metrics.lookup mb.1 with
  | some cv =>
    if mb.2 - cv > threshold then some ⟨mb.1, mb.2, cv, mb.2 - cv⟩ else none
  | none => none

/-- The retraining recommendation built by `should_retrain` (timestamp
omitted: wall clock). -/
structure RetrainRecommendation where
  should_retrain : Bool
  reasons : List String
  priority : String
deriving DecidableEq

/-- ModelMonitor.should_retrain (metrics.py lines 222-263): three trigger
checks in a fixed textual order, each appending its reason and forcing the
flag; priority is high exactly when performance degraded. -/
def should_retrain (drift_detected performance_degraded : Bool)
    (days_since_training max_days : ℤ) : RetrainRecommendation :=
  let s0 := false
  let r0 : List String := []
  let s1 := if drift_detected then true else s0
  let r1 := if drift_detected then r0 ++ ["Data drift detected"] else r0
  let s2 := if performance_degraded then true else s1
  let r2 := if performance_degraded then r1 ++ ["Performance degradation detected"] else r1
  let s3 := if days_since_training ≥ max_days then true else s2
  let r3 := if days_since_training ≥ max_days then
      r2 ++ ["Scheduled retraining (>" ++ toString max_days ++ " days)"] else r2
  { should_retrain := s3, reasons := r3,
    priority := if performance_degraded then ("high") else ("medium") }

end Monitoring

namespace Forecasting

/-- The model names held in `self.models` and dispatched on by string in
`generate_forecast`. -/
inductive ModelName where
  | ARIMA : ModelName
  | SARIMA : ModelName
  | XGBoost : ModelName
deriving DecidableEq

/-- One row of the predictions DataFrame built by `generate_forecast`. -/
structure ForecastRow where
  date : ℤ
  predicted_price : ℚ
  model : ModelName
deriving DecidableEq

/-- pd.date_range(start, periods, freq='D'): `periods` consecutive day
numbers from `start`. -/
def date_range (start : ℤ) (periods : ℕ) : List ℤ :=
  (List.range periods).map (fun (i : ℕ) => start + (i : ℤ))

/-- ProductionForecaster.generate_forecast (production_pipeline.py lines
342-403). `modelForecast` is the external model collaborator
(`model.forecast(steps)` for the statistical models). The frame is passed as
its date column and spot-price column; `none` models the raising paths:
empty date column (`max()` raises), a statistical model returning a
prediction list of the wrong length (the DataFrame constructor raises), or an
empty spot-price column in the XGBoost branch (`iloc[-1]` raises). The
XGBoost branch repeats the last known spot price, as the source comments
say, as a placeholder. -/
def generate_forecast (modelForecast : ModelName → ℕ → List ℚ)
    (model_name : ModelName) (dates : List ℤ) (spot_price : List ℚ)
    (steps : ℕ) : Option (List ForecastRow) :=
  match dates.max? with
  | none => none
  | some d =>
    let forecast_dates := date_range (d + 1) steps
    match model_name with
    | .ARIMA | .SARIMA =>
      let forecast := modelForecast model_name steps
      if forecast.length = steps then
        some ((forecast_dates.zip forecast).map (fun p => ⟨p.1, p.2, model_name⟩))
      else none
    | .XGBoost =>
      match spot_price.getLast? with
      | none => none
      | some last =>
        some ((forecast_dates.zip (List.replicate steps last)).map
          (fun p => ⟨p.1, p.2, model_name⟩))

/-- Pandas `Series.mean()`: `none` models the NaN mean of an empty series. -/
def listMean (s : List ℚ) : Option ℚ :=
  if s.length = 0 then none else some (s.sum / (s.length : ℚ))

/-- Mean of `forecast_df.iloc[a:b]['predicted_price']`. -/
def sliceMean (xs : List ℚ) (a b : ℕ) : Option ℚ :=
  listMean ((xs.drop a).take (b - a))

/-- The `forecast_30d` aggregate of t_policy_recommendation
(`forecast_df.iloc[:30].mean()`, line 437). -/
def forecast_30d_agg (xs : List ℚ) : Option ℚ := sliceMean xs 0 30

/-- The `forecast_60d` aggregate (`forecast_df.iloc[30:60].mean()`, line 438). -/
def forecast_60d_agg (xs : List ℚ) : Option ℚ := sliceMean xs 30 60

/-- The `forecast_90d` aggregate (`forecast_df.iloc[60:90].mean()`, line 439). -/
def forecast_90d_agg (xs : List ℚ) : Option ℚ := sliceMean xs 60 90

/-- The three discrete hedging actions of the T-policy. -/
inductive TRecommendation where
  | LOCK : TRecommendation
  | WAIT : TRecommendation
  | MONITOR : TRecommendation
deriving DecidableEq

/-- The dict returned by t_policy_recommendation (free-text reasoning string
omitted: it carries no decision content). -/
structure TPolicyResult where
  recommendation : TRecommendation
  trend_pct : Option ℚ
  expected_savings : Option ℚ
  current_price : ℚ
  forecast_90d : Option ℚ
deriving DecidableEq

/-- ProductionForecaster.t_policy_recommendation (production_pipeline.py
lines 405-475): fixed-index window aggregates, trend percentage against the
current spot price, strict-threshold decision (`trend > 2` locks,
`trend < -2` waits, else monitor), and the savings estimate over the assumed
1,000,000-bushel volume. NaN aggregates (`none`) compare false against both
thresholds, exactly as the float comparisons do. -/
def t_policy_recommendation (forecast_prices : List ℚ) (current_spot_price : ℚ) :
    TPolicyResult :=
  let forecast_90d := forecast_90d_agg forecast_prices
  let trend := forecast_90d.map
    (fun v => (v - current_spot_price) / current_spot_price * 100)
  if nanGt trend 2 then
    { recommendation := .LOCK, trend_pct := trend,
      expected_savings := forecast_90d.map (fun v => (v - current_spot_price) * 1000000),
      current_price := current_spot_price, forecast_90d := forecast_90d }
  else if nanLt trend (-2) then
    { recommendation := .WAIT, trend_pct := trend,
      expected_savings := forecast_90d.map (fun v => |(current_spot_price - v) * 1000000|),
      current_price := current_spot_price, forecast_90d := forecast_90d }
  else
    { recommendation := .MONITOR, trend_pct := trend,
      expected_savings := some 0,
      current_price := current_spot_price, forecast_90d := forecast_90d }

/-- Windowing as the specification words it (for comparison with the
implementation): the first third of the horizon. -/
def spec_short_window (xs : List ℚ) : List ℚ := xs.take (xs.length / 3)

/-- Windowing as the specification words it: the middle third. -/
def spec_medium_window (xs : List ℚ) : List ℚ :=
  (xs.drop (xs.length / 3)).take (xs.length / 3)

/-- Windowing as the specification words it: the final third, receiving the
remainder when the horizon is not divisible by three. -/
def spec_long_window (xs : List ℚ) : List ℚ := xs.drop (2 * (xs.length / 3))

end Forecasting


/-!
Theorems settling the claims. The `semireducible` attribute below only undoes
the `irreducible` marking of the library's rational arithmetic so that closed
rational computations reduce during elaboration; it changes nothing the
kernel checks.
-/

section

attribute [local semireducible] Rat.mul Rat.inv Rat.add Rat.sub Rat.ofScientific

open Monitoring Forecasting

/-- A property holding at the start of a loop and preserved by each iteration
holds at the end. -/
theorem foldl_preserves {α β : Type} (P : β → Prop) (f : β → α → β) :
    ∀ (l : List α) (init : β), P init → (∀ b a, P b → P (f b a)) → P (l.foldl f init)
  | [], init, h, _ => h
  | x :: xs, init, h, hstep => foldl_preserves P f xs (f init x) (hstep init x h) hstep

/-- Zipping a list with `replicate` of its own length pairs every element with
the constant. -/
theorem zip_replicate_right {α β : Type} (c : β) :
    ∀ (l : List α), l.zip (List.replicate l.length c) = l.map (fun x => (x, c)) := by
  intro l
  induction l with
  | nil => rfl
  | cons x xs ih => simp [List.replicate_succ, ih]

/-- Mapping over a zip with a constant right column of matching length. -/
theorem map_zip_replicate {α β γ : Type} (f : α × β → γ) (c : β) (l : List α) (n : ℕ)
    (h : l.length = n) :
    (l.zip (List.replicate n c)).map f = l.map (fun x => f (x, c)) := by
  subst h
  rw [zip_replicate_right, List.map_map]
  rfl

/-- Looking up the inserted key of a Python dict finds the inserted value. -/
theorem lookup_dictInsert_self (d : List (String × Option ℚ)) (k : String) (v : Option ℚ) :
    (dictInsert d k v).lookup k = some v := by
  induction d with
  | nil => simp [dictInsert, List.lookup]
  | cons kv rest ih =>
    obtain ⟨a, b⟩ := kv
    by_cases h : a = k
    · have hk : (k == k) = true := beq_self_eq_true k
      simp [dictInsert, h, List.lookup, hk]
    · have hka : (k == a) = false := beq_eq_false_iff_ne.mpr (Ne.symm h)
      have hak : (a == k) = false := beq_eq_false_iff_ne.mpr h
      simp [dictInsert, hak, List.lookup, hka, ih]

/-- Looking up any other key of a Python dict is unchanged by an insertion. -/
theorem lookup_dictInsert_ne (d : List (String × Option ℚ)) (k : String) (v : Option ℚ)
    (f : String) (h : f ≠ k) : (dictInsert d k v).lookup f = d.lookup f := by
  have hfk : (f == k) = false := beq_eq_false_iff_ne.mpr h
  induction d with
  | nil => simp [dictInsert, List.lookup, hfk]
  | cons kv rest ih =>
    obtain ⟨a, b⟩ := kv
    by_cases ha : a = k
    · subst ha
      have haa : (a == a) = true := beq_self_eq_true a
      simp [dictInsert, haa, List.lookup, hfk]
    · have hak : (a == k) = false := beq_eq_false_iff_ne.mpr ha
      cases hfa : (f == a) <;> simp [dictInsert, hak, List.lookup, hfa, ih]

/-- The features dict written by one drift-loop iteration: untouched for a
feature absent from the current frame, otherwise the feature's score is
inserted (whether or not the threshold was exceeded). -/
theorem driftStep_features (ln : ℚ → ℚ) (reference : Option Monitoring.Frame)
    (current : Monitoring.Frame) (threshold : ℚ) (rep : DriftReport) (feature : String) :
    (driftStep ln reference current threshold rep feature).features =
      (if feature ∈ cols current then
        dictInsert rep.features feature (calculate_drift ln reference current feature .ks)
       else rep.features) := by
  unfold driftStep
  by_cases hc : feature ∈ cols current
  · by_cases hg : nanGt (calculate_drift ln reference current feature .ks) threshold <;>
      simp [hc, hg]
  · simp [hc]

/-- Once a feature of the current frame is visited by the drift loop, its
recorded score is its `calculate_drift` value, and it stays recorded. -/
theorem lookup_after_driftFold (ln : ℚ → ℚ) (reference : Option Monitoring.Frame)
    (current : Monitoring.Frame) (threshold : ℚ) (f : String) (hc : f ∈ cols current) :
    ∀ (feats : List String) (rep : DriftReport),
      (f ∈ feats ∨
        rep.features.lookup f = some (calculate_drift ln reference current f .ks)) →
      (feats.foldl (driftStep ln reference current threshold) rep).features.lookup f
        = some (calculate_drift ln reference current f .ks) := by
  intro feats
  induction feats with
  | nil =>
    intro rep h
    rcases h with h | h
    · cases h
    · simpa using h
  | cons g rest ih =>
    intro rep h
    rw [List.foldl_cons]
    apply ih
    by_cases hg : g = f
    · subst hg
      right
      rw [driftStep_features, if_pos hc]
      exact lookup_dictInsert_self _ _ _
    · rcases h with h | h
      · rcases List.mem_cons.mp h with h' | h'
        · exact absurd h'.symm hg
        · exact Or.inl h'
      · right
        rw [driftStep_features]
        by_cases hgc : g ∈ cols current
        · rw [if_pos hgc, lookup_dictInsert_ne _ _ _ _ (fun he => hg he.symm)]
          exact h
        · rw [if_neg hgc]
          exact h

/-- The degradation loop, run from any accumulator, appends exactly the
entries `degEntryFor` selects, and the flag records whether any was added. -/
theorem degStep_foldl (cur : List (String × ℚ)) (thr : ℚ) :
    ∀ (base : List (String × ℚ)) (acc : DegradationReport),
      ((base.foldl (degStep cur thr) acc).degraded_metrics
          = acc.degraded_metrics ++ base.filterMap (degEntryFor cur thr)) ∧
      ((base.foldl (degStep cur thr) acc).degraded = true ↔
          (acc.degraded = true ∨ base.filterMap (degEntryFor cur thr) ≠ [])) := by
  intro base
  induction base with
  | nil => intro acc; simp
  | cons mb rest ih =>
    intro acc
    simp only [List.foldl_cons, List.filterMap_cons]
    cases hl : cur.lookup mb.1 with
    | none =>
      have hstep : degStep cur thr acc mb = acc := by simp [degStep, hl]
      simp [hstep, degEntryFor, hl, ih acc]
    | some cv =>
      by_cases hgt : mb.2 - cv > thr
      · have hstep : degStep cur thr acc mb =
            { degraded := true,
              degraded_metrics := acc.degraded_metrics ++ [⟨mb.1, mb.2, cv, mb.2 - cv⟩] } := by
          simp [degStep, hl, hgt]
        have h1 := ih { degraded := true,
                        degraded_metrics := acc.degraded_metrics ++ [⟨mb.1, mb.2, cv, mb.2 - cv⟩] }
        simp [hstep, degEntryFor, hl, hgt, h1.1, h1.2]
      · have hstep : degStep cur thr acc mb = acc := by simp [degStep, hl, hgt]
        simp [hstep, degEntryFor, hl, hgt, ih acc]

/-- Claim C1 (code_bug evaluation). The claim says every PSI computation
floors zero-proportion bins with a small epsilon and returns a finite score.
The source has no such floor: on reference sample 1..10 (ten values, the
default ten bins, one value per bin) and current sample [1, 1], bins 2..10
have current proportion 0 against reference proportion 1/10, so each such
term is `(0 - 1/10) * log 0 = +inf` and the returned float is infinite —
modelled as `none`, for every possible logarithm function. -/
theorem c1_psi_nonfinite_at_input (ln : ℚ → ℚ) :
    calculate_psi ln [1, 2, 3, 4, 5, 6, 7, 8, 9, 10] [1, 1] 10 = none := rfl

/-- Claim C2 (code_bug evaluation). The claim says a forecast that cannot be
computed surfaces FORECAST_FAILED and is never silently substituted with a
placeholder such as repeating the last known price. The source's XGBoost
branch does exactly the forbidden thing: whenever the frame has a last spot
price, it returns a full series all of whose predicted prices are that last
known price (the source comments the value list with "# Placeholder"), and
no error is raised. -/
theorem c2_xgboost_placeholder (mf : ModelName → ℕ → List ℚ) (dates : List ℤ)
    (spot : List ℚ) (steps : ℕ) (d : ℤ) (last_price : ℚ)
    (hd : dates.max? = some d) (hl : spot.getLast? = some last_price) :
    generate_forecast mf ModelName.XGBoost dates spot steps =
      some ((date_range (d + 1) steps).map
        (fun dt => ⟨dt, last_price, ModelName.XGBoost⟩)) := by
  have hlen : (date_range (d + 1) steps).length = steps := by
    unfold date_range
    rw [List.length_map, List.length_range]
  simp only [generate_forecast, hd, hl]
  rw [map_zip_replicate _ _ _ _ hlen]

/-- Witness for C2: a concrete run of the XGBoost branch returning three
copies of the last known price 5, dated 11, 12, 13. -/
theorem c2_xgboost_placeholder_witness :
    ([(10 : ℤ)].max? = some 10) ∧ ([(5 : ℚ)].getLast? = some 5) ∧
    generate_forecast (fun _ _ => []) ModelName.XGBoost [(10 : ℤ)] [(5 : ℚ)] 3 =
      some [⟨11, 5, ModelName.XGBoost⟩, ⟨12, 5, ModelName.XGBoost⟩,
            ⟨13, 5, ModelName.XGBoost⟩] :=
  ⟨rfl, rfl, c2_xgboost_placeholder (fun _ _ => []) [10] [5] 3 10 5 rfl rfl⟩

/-- Counterexample to claim C3 as stated: with baseline metric accuracy 0.9
and an empty current metric set, the metric is present in baseline and absent
from current, yet the degradation report flags nothing and lists nothing —
there is no MISSING_METRIC condition; the metric is silently dropped. -/
theorem c3_missing_metric_counterexample :
    (check_performance_degradation [] [("accuracy", 9/10)] (1/20)).degraded = false ∧
    (check_performance_degradation [] [("accuracy", 9/10)] (1/20)).degraded_metrics = [] ∧
    List.lookup ("accuracy") ([] : List (String × ℚ)) = none :=
  ⟨rfl, rfl, rfl⟩

/-- Claim C3 amended: check_performance_degradation reports exactly the
metrics present in both baseline and current whose degradation exceeds the
threshold (in baseline order), the degraded flag is set iff that list is
non-empty, and a metric absent from the current metrics never appears in the
report — it is skipped silently rather than flagged as MISSING_METRIC. -/
theorem c3_degradation_report_amended (cur base : List (String × ℚ)) (thr : ℚ) :
    ((check_performance_degradation cur base thr).degraded_metrics
        = base.filterMap (degEntryFor cur thr)) ∧
    ((check_performance_degradation cur base thr).degraded = true ↔
        base.filterMap (degEntryFor cur thr) ≠ []) ∧
    (∀ m : String, cur.lookup m = none →
        m ∉ ((check_performance_degradation cur base thr).degraded_metrics.map
          DegEntry.metric)) := by
  have h := degStep_foldl cur thr base { degraded := false, degraded_metrics := [] }
  refine ⟨?_, ?_, ?_⟩
  · simpa [check_performance_degradation] using h.1
  · simpa [check_performance_degradation] using h.2
  · intro m hm hmem
    rw [check_performance_degradation] at hmem
    rw [h.1] at hmem
    simp only [List.nil_append, List.mem_map] at hmem
    obtain ⟨e, he, hme⟩ := hmem
    obtain ⟨mb, hmb, hfe⟩ := List.mem_filterMap.mp he
    rw [degEntryFor] at hfe
    cases hl : cur.lookup mb.1 with
    | none => rw [hl] at hfe; cases hfe
    | some cv =>
      rw [hl] at hfe
      by_cases hgt : mb.2 - cv > thr
      · simp only [hgt, if_true, Option.some.injEq] at hfe
        subst hfe
        have hme' : mb.1 = m := by simpa using hme
        rw [hme'] at hl
        rw [hl] at hm
        cases hm
      · simp [hgt] at hfe

/-- Witness for C3 amended, third conjunct: the baseline metric f1_score is
absent from the current metrics and indeed never appears in the report. -/
theorem c3_degradation_report_amended_witness :
    (List.lookup ("f1_score") [("accuracy", (8 : ℚ)/10)] = none) ∧
    ("f1_score") ∉ ((check_performance_degradation [("accuracy", (8 : ℚ)/10)]
        [("accuracy", (9 : ℚ)/10), ("f1_score", (7 : ℚ)/10)]
        (1/20)).degraded_metrics.map DegEntry.metric) :=
  ⟨by decide,
    (c3_degradation_report_amended [("accuracy", (8 : ℚ)/10)]
      [("accuracy", (9 : ℚ)/10), ("f1_score", (7 : ℚ)/10)] (1/20)).2.2 ("f1_score")
      (by decide)⟩

/-- Counterexample to claim C4 as stated: on the length-3 forecast [1, 2, 3]
the claim's thirds are [1], [2], [3], with long-window average 3 and
short-window average 1; the code's fixed windows give a long aggregate that
is the NaN mean of the empty slice iloc[60:90] and a short aggregate 2 (the
mean of all three values), so neither matches the claimed windows. -/
theorem c4_fixed_windows_counterexample :
    forecast_90d_agg [1, 2, 3] = none ∧
    listMean (spec_long_window [1, 2, 3]) = some 3 ∧
    ¬ forecast_30d_agg [1, 2, 3] = listMean (spec_short_window [1, 2, 3]) := by
  decide

/-- Claim C4 amended: the three aggregates are the means of the fixed index
windows iloc[:30], iloc[30:60], iloc[60:90], not of thirds of the horizon;
for a horizon of exactly 90 steps (the pipeline default) these fixed windows
coincide with the specification's first/middle/final thirds. -/
theorem c4_windows_amended (xs : List ℚ) (h : xs.length = 90) :
    forecast_30d_agg xs = listMean (spec_short_window xs) ∧
    forecast_60d_agg xs = listMean (spec_medium_window xs) ∧
    forecast_90d_agg xs = listMean (spec_long_window xs) := by
  have h3 : xs.length / 3 = 30 := by rw [h]
  have hlong : (xs.drop 60).take 30 = xs.drop 60 := by
    apply List.take_of_length_le
    rw [List.length_drop, h]
  refine ⟨?_, ?_, ?_⟩
  · simp [forecast_30d_agg, sliceMean, spec_short_window, h3]
  · simp [forecast_60d_agg, sliceMean, spec_medium_window, h3]
  · simp [forecast_90d_agg, sliceMean, spec_long_window, h3, hlong]

/-- Witness for C4 amended at a concrete 90-step forecast. -/
theorem c4_windows_amended_witness :
    (List.replicate 90 (2 : ℚ)).length = 90 ∧
    (forecast_30d_agg (List.replicate 90 (2 : ℚ)) =
        listMean (spec_short_window (List.replicate 90 (2 : ℚ))) ∧
     forecast_60d_agg (List.replicate 90 (2 : ℚ)) =
        listMean (spec_medium_window (List.replicate 90 (2 : ℚ))) ∧
     forecast_90d_agg (List.replicate 90 (2 : ℚ)) =
        listMean (spec_long_window (List.replicate 90 (2 : ℚ)))) :=
  ⟨by decide, c4_windows_amended (List.replicate 90 2) (by decide)⟩

/-- Counterexample to claim C5 as stated: feature f is configured and present
in the reference data but missing from the current batch; the claim says it
must still appear in the report's score mapping with score 0, but the report
produced has an empty mapping — the feature is skipped entirely. -/
theorem c5_missing_current_feature_counterexample :
    (check_all_features_drift (fun _ => 0) (some [("f", [1])]) [] ["f"] (3/10)).features
        = [] ∧
    (check_all_features_drift (fun _ => 0) (some [("f", [1])]) [] ["f"]
      (3/10)).features.lookup ("f") = none :=
  ⟨rfl, rfl⟩

/-- Claim C5 amended: a configured feature missing from the reference data but
present in the current batch is recorded with drift score 0 (with a logged
warning) and the report is still produced; a configured feature missing from
the current batch is skipped entirely — it appears neither in the report's
score mapping nor among the drifted features (the whole report is still
produced either way). -/
theorem c5_missing_feature_amended (ln : ℚ → ℚ) (ref current : Monitoring.Frame)
    (feats : List String) (threshold : ℚ) (f : String) :
    (f ∈ feats → f ∈ cols current → f ∉ cols ref →
      (check_all_features_drift ln (some ref) current feats threshold).features.lookup f
        = some (some 0)) ∧
    (f ∉ cols current →
      ((check_all_features_drift ln (some ref) current feats threshold).features.lookup f
          = none ∧
       f ∉ (check_all_features_drift ln (some ref) current feats threshold).drifted_features)) := by
  constructor
  · intro hin hc hnr
    have hscore : calculate_drift ln (some ref) current f .ks = some 0 := by
      simp only [calculate_drift]
      rw [if_pos (Or.inl hnr)]
    have h := lookup_after_driftFold ln (some ref) current threshold f hc feats
      { features := [], drifted_features := [], drift_detected := false } (Or.inl hin)
    rw [hscore] at h
    exact h
  · intro hc
    have h : (fun rep : DriftReport =>
        rep.features.lookup f = none ∧ f ∉ rep.drifted_features)
        (feats.foldl (driftStep ln (some ref) current threshold)
          { features := [], drifted_features := [], drift_detected := false }) := by
      apply foldl_preserves
        (fun rep : DriftReport => rep.features.lookup f = none ∧ f ∉ rep.drifted_features)
      · exact ⟨rfl, by simp⟩
      · rintro rep g ⟨hl, hd⟩
        constructor
        · rw [driftStep_features]
          by_cases hgc : g ∈ cols current
          · have hgf : f ≠ g := fun he => hc (he ▸ hgc)
            rw [if_pos hgc, lookup_dictInsert_ne _ _ _ _ hgf]
            exact hl
          · rw [if_neg hgc]
            exact hl
        · unfold driftStep
          by_cases hgc : g ∈ cols current
          · by_cases hgt : nanGt (calculate_drift ln (some ref) current g .ks) threshold
            · simp only [hgc, if_true, hgt, List.mem_append, List.mem_singleton]
              rintro (hmem | hfg)
              · exact hd hmem
              · exact hc (hfg ▸ hgc)
            · simp only [hgc, if_true, hgt]
              simpa using hd
          · simp only [hgc, if_false]
            exact hd
    exact h

/-- Witness for C5 amended: feature a is configured, in the current batch and
not in the reference, and is recorded with score 0; feature b is configured
but not in the current batch, and appears nowhere in the report. -/
theorem c5_missing_feature_amended_witness :
    (("a") ∈ ["a", "b"] ∧ ("a") ∈ cols [("a", [(1 : ℚ), 2])] ∧
      ("a") ∉ cols [("r", [(1 : ℚ)])] ∧
      (check_all_features_drift (fun _ => 0) (some [("r", [(1 : ℚ)])]) [("a", [(1 : ℚ), 2])]
        ["a", "b"] (3/10)).features.lookup ("a") = some (some 0)) ∧
    (("b") ∉ cols [("a", [(1 : ℚ), 2])] ∧
      ((check_all_features_drift (fun _ => 0) (some [("r", [(1 : ℚ)])]) [("a", [(1 : ℚ), 2])]
          ["a", "b"] (3/10)).features.lookup ("b") = none ∧
       ("b") ∉ (check_all_features_drift (fun _ => 0) (some [("r", [(1 : ℚ)])])
          [("a", [(1 : ℚ), 2])] ["a", "b"] (3/10)).drifted_features)) :=
  ⟨⟨by decide, by decide, by decide,
    (c5_missing_feature_amended (fun _ => 0) [("r", [(1 : ℚ)])] [("a", [(1 : ℚ), 2])]
      ["a", "b"] (3/10) ("a")).1 (by decide) (by decide) (by decide)⟩,
   ⟨by decide,
    (c5_missing_feature_amended (fun _ => 0) [("r", [(1 : ℚ)])] [("a", [(1 : ℚ), 2])]
      ["a", "b"] (3/10) ("b")).2 (by decide)⟩⟩

/-- Claim C6: should_retrain is a pure function of its inputs, so evaluating
it twice with the same inputs yields an identical recommendation; its reasons
list is non-empty exactly when the retrain flag is set; and the reasons
appear in the fixed order drift first, then performance, then time-based. -/
theorem c6_retrain_policy (d p : Bool) (days m : ℤ) :
    should_retrain d p days m = should_retrain d p days m ∧
    ((should_retrain d p days m).reasons ≠ [] ↔
      (should_retrain d p days m).should_retrain = true) ∧
    (should_retrain d p days m).reasons =
      (if d then ["Data drift detected"] else []) ++
      (if p then ["Performance degradation detected"] else []) ++
      (if days ≥ m then ["Scheduled retraining (>" ++ toString m ++ " days)"] else []) := by
  refine ⟨rfl, ?_, ?_⟩ <;>
    cases d <;> cases p <;> by_cases h : days ≥ m <;> simp [should_retrain, h]

/-- Claim C7: for every forecast with a defined long-horizon aggregate and
every positive reference price, the decision is LOCK exactly when the trend
percentage strictly exceeds 2, WAIT exactly when it is strictly below -2, and
MONITOR otherwise; in particular a trend of exactly 2 yields MONITOR. -/
theorem c7_decision_thresholds (xs : List ℚ) (p v : ℚ) (hp : 0 < p)
    (hv : forecast_90d_agg xs = some v) :
    ((t_policy_recommendation xs p).recommendation = TRecommendation.LOCK ↔
      2 < (v - p) / p * 100) ∧
    ((t_policy_recommendation xs p).recommendation = TRecommendation.WAIT ↔
      (v - p) / p * 100 < -2) ∧
    ((t_policy_recommendation xs p).recommendation = TRecommendation.MONITOR ↔
      (-2 ≤ (v - p) / p * 100 ∧ (v - p) / p * 100 ≤ 2)) ∧
    ((v - p) / p * 100 = 2 →
      (t_policy_recommendation xs p).recommendation = TRecommendation.MONITOR) := by
  have hrec : (t_policy_recommendation xs p).recommendation =
      (if 2 < (v - p) / p * 100 then TRecommendation.LOCK
       else if (v - p) / p * 100 < -2 then TRecommendation.WAIT
       else TRecommendation.MONITOR) := by
    simp only [t_policy_recommendation, hv, Option.map_some', nanGt, nanLt]
    by_cases hA : 2 < (v - p) / p * 100 <;> by_cases hB : (v - p) / p * 100 < -2 <;>
      simp [hA, hB]
  refine ⟨?_, ?_, ?_, ?_⟩ <;> rw [hrec] <;> split_ifs with hA hB <;> simp_all <;>
    linarith

set_option maxRecDepth 4000 in
/-- Witness for C7: the spec's own example — a constant 103 forecast against
reference price 100 has trend 3 percent and locks. -/
theorem c7_decision_thresholds_witness :
    (0 : ℚ) < 100 ∧ forecast_90d_agg (List.replicate 90 (103 : ℚ)) = some 103 ∧
    ((t_policy_recommendation (List.replicate 90 (103 : ℚ)) 100).recommendation =
        TRecommendation.LOCK ↔ 2 < ((103 : ℚ) - 100) / 100 * 100) :=
  ⟨by norm_num, by decide,
    (c7_decision_thresholds (List.replicate 90 103) 100 103 (by norm_num) (by decide)).1⟩

/-- Claim C8: whatever model is used, every forecast the engine returns for a
positive number of steps has exactly that many rows, and its dates are the
consecutive days starting the day after the last known date. -/
theorem c8_forecast_series_shape (mf : ModelName → ℕ → List ℚ) (model_name : ModelName)
    (dates : List ℤ) (spot : List ℚ) (steps : ℕ) (d : ℤ) (series : List ForecastRow)
    (hsteps : 0 < steps) (hd : dates.max? = some d)
    (hres : generate_forecast mf model_name dates spot steps = some series) :
    series.length = steps ∧
    series.map ForecastRow.date = (List.range steps).map (fun (i : ℕ) => d + 1 + (i : ℤ)) := by
  have hdr : (date_range (d + 1) steps).length = steps := by
    unfold date_range
    rw [List.length_map, List.length_range]
  have main : ∀ (vals : List ℚ) (m : ModelName), vals.length = steps →
      series = ((date_range (d + 1) steps).zip vals).map
        (fun p => (⟨p.1, p.2, m⟩ : ForecastRow)) →
      series.length = steps ∧
      series.map ForecastRow.date = (List.range steps).map (fun (i : ℕ) => d + 1 + (i : ℤ)) := by
    intro vals m hv hser
    subst hser
    refine ⟨?_, ?_⟩
    · rw [List.length_map, List.length_zip, hdr, hv, Nat.min_self]
    · rw [List.map_map]
      have hcomp : (ForecastRow.date ∘ fun p : ℤ × ℚ => (⟨p.1, p.2, m⟩ : ForecastRow)) =
          Prod.fst := rfl
      rw [hcomp, List.map_fst_zip _ _ (by rw [hdr, hv])]
      unfold date_range
      rfl
  cases model_name with
  | ARIMA =>
    simp only [generate_forecast, hd] at hres
    by_cases hflen : (mf ModelName.ARIMA steps).length = steps
    · rw [if_pos hflen] at hres
      exact main _ _ hflen (Option.some.inj hres).symm
    · rw [if_neg hflen] at hres
      cases hres
  | SARIMA =>
    simp only [generate_forecast, hd] at hres
    by_cases hflen : (mf ModelName.SARIMA steps).length = steps
    · rw [if_pos hflen] at hres
      exact main _ _ hflen (Option.some.inj hres).symm
    · rw [if_neg hflen] at hres
      cases hres
  | XGBoost =>
    simp only [generate_forecast, hd] at hres
    cases hlast : spot.getLast? with
    | none => rw [hlast] at hres; cases hres
    | some lastv =>
      rw [hlast] at hres
      exact main _ _ (List.length_replicate _ _) (Option.some.inj hres).symm

/-- Witness for C8: the spec's example shape — five steps from last known day
10 give exactly the five consecutive days 11 through 15. -/
theorem c8_forecast_series_shape_witness :
    0 < 5 ∧ ([(10 : ℤ)].max? = some 10) ∧
    generate_forecast (fun _ n => List.replicate n 7) ModelName.ARIMA [(10 : ℤ)] [] 5 =
      some [⟨11, 7, ModelName.ARIMA⟩, ⟨12, 7, ModelName.ARIMA⟩, ⟨13, 7, ModelName.ARIMA⟩,
            ⟨14, 7, ModelName.ARIMA⟩, ⟨15, 7, ModelName.ARIMA⟩] ∧
    ([(⟨11, 7, ModelName.ARIMA⟩ : ForecastRow), ⟨12, 7, ModelName.ARIMA⟩,
      ⟨13, 7, ModelName.ARIMA⟩, ⟨14, 7, ModelName.ARIMA⟩, ⟨15, 7, ModelName.ARIMA⟩].length = 5 ∧
     [(⟨11, 7, ModelName.ARIMA⟩ : ForecastRow), ⟨12, 7, ModelName.ARIMA⟩,
      ⟨13, 7, ModelName.ARIMA⟩, ⟨14, 7, ModelName.ARIMA⟩,
      ⟨15, 7, ModelName.ARIMA⟩].map ForecastRow.date =
        (List.range 5).map (fun (i : ℕ) => 10 + 1 + (i : ℤ))) :=
  ⟨by decide, rfl, rfl,
    c8_forecast_series_shape (fun _ n => List.replicate n 7) ModelName.ARIMA [10] [] 5 10 _
      (by decide) rfl rfl⟩

/-- Claim C9: in every report the drift check produces, a feature is listed
as drifted exactly when its recorded score exceeds the threshold, and the
overall drift flag is set exactly when some feature is listed as drifted. -/
theorem c9_drift_report_invariant (ln : ℚ → ℚ) (reference : Option Monitoring.Frame)
    (current : Monitoring.Frame) (feats : List String) (threshold : ℚ) :
    (∀ f : String,
      f ∈ (check_all_features_drift ln reference current feats threshold).drifted_features ↔
      ∃ s, (check_all_features_drift ln reference current feats threshold).features.lookup f
              = some s ∧ nanGt s threshold = true) ∧
    ((check_all_features_drift ln reference current feats threshold).drift_detected = true ↔
      (check_all_features_drift ln reference current feats threshold).drifted_features ≠ []) := by
  let P : DriftReport → Prop := fun rep =>
    (∀ f, rep.features.lookup f = none ∨
      rep.features.lookup f = some (calculate_drift ln reference current f .ks)) ∧
    (∀ f, f ∈ rep.drifted_features ↔
      (rep.features.lookup f ≠ none ∧
       nanGt (calculate_drift ln reference current f .ks) threshold = true)) ∧
    (rep.drift_detected = true ↔ rep.drifted_features ≠ [])
  have hinit : P { features := [], drifted_features := [], drift_detected := false } := by
    refine ⟨fun f => Or.inl rfl, fun f => ?_, ?_⟩ <;> simp [List.lookup]
  have hstep : ∀ (rep : DriftReport) (g : String),
      P rep → P (driftStep ln reference current threshold rep g) := by
    rintro rep g ⟨h1, h2, h3⟩
    by_cases hc : g ∈ cols current
    case neg => simpa [driftStep, hc] using ⟨h1, h2, h3⟩
    by_cases hg : nanGt (calculate_drift ln reference current g .ks) threshold
    · have hrep : driftStep ln reference current threshold rep g =
          { features := dictInsert rep.features g (calculate_drift ln reference current g .ks),
            drifted_features := rep.drifted_features ++ [g], drift_detected := true } := by
        simp [driftStep, hc, hg]
      rw [hrep]
      refine ⟨fun f => ?_, fun f => ?_, by simp⟩
      · by_cases hf : f = g
        · subst hf
          exact Or.inr (lookup_dictInsert_self _ _ _)
        · rw [lookup_dictInsert_ne _ _ _ _ hf]
          exact h1 f
      · by_cases hf : f = g
        · subst hf
          simp [lookup_dictInsert_self, hg]
        · rw [lookup_dictInsert_ne _ _ _ _ hf]
          simp only [List.mem_append, List.mem_singleton, hf, or_false]
          exact h2 f
    · have hrep : driftStep ln reference current threshold rep g =
          { features := dictInsert rep.features g (calculate_drift ln reference current g .ks),
            drifted_features := rep.drifted_features,
            drift_detected := rep.drift_detected } := by
        simp [driftStep, hc, hg]
      rw [hrep]
      refine ⟨fun f => ?_, fun f => ?_, h3⟩
      · by_cases hf : f = g
        · subst hf
          exact Or.inr (lookup_dictInsert_self _ _ _)
        · rw [lookup_dictInsert_ne _ _ _ _ hf]
          exact h1 f
      · by_cases hf : f = g
        · subst hf
          rw [lookup_dictInsert_self]
          constructor
          · intro hmem
            exact absurd ((h2 f).mp hmem).2 hg
          · rintro ⟨-, hgt⟩
            exact absurd hgt hg
        · rw [lookup_dictInsert_ne _ _ _ _ hf]
          exact h2 f
  have hP : P (check_all_features_drift ln reference current feats threshold) :=
    foldl_preserves P (driftStep ln reference current threshold) feats
      { features := [], drifted_features := [], drift_detected := false } hinit hstep
  obtain ⟨h1, h2, h3⟩ := hP
  refine ⟨fun f => ?_, h3⟩
  constructor
  · intro hf
    obtain ⟨hne, hgt⟩ := (h2 f).mp hf
    rcases h1 f with hnone | hsome
    · exact absurd hnone hne
    · exact ⟨_, hsome, hgt⟩
  · rintro ⟨s, hs, hgt⟩
    rcases h1 f with hnone | hsome
    · rw [hnone] at hs
      cases hs
    · refine (h2 f).mpr ⟨by rw [hsome]; exact Option.some_ne_none _, ?_⟩
      rw [hsome] at hs
      rw [Option.some.inj hs]
      exact hgt

/-- Claim C10: when no reference data is configured, calculate_drift returns
the float 0.0 (no drift) for every current batch, feature and method, instead
of failing. -/
theorem c10_no_reference_no_drift (ln : ℚ → ℚ) (current : Monitoring.Frame)
    (feature : String) (method : DriftMethod) :
    calculate_drift ln none current feature method = some 0 := rfl

end

end PyRev
